import Mathlib

/-
Verification of the query classification and response-synthesis pipeline of
the voice-ai-backend service (src/server.js, two variants: the rule-routed
pipeline and the model-augmented pipeline).  Messages are modelled as lists
of characters; the external capabilities (geocoding, forecast, encyclopedia
summary, web search, language-model completion, persistence) are modelled as
injected functions returning `Except`, where `Except.error` stands for the
JS promise rejection caught by the surrounding try/catch.
-/

/-- ASCII whitespace characters matched by the JS regex class backslash-s.
The additional Unicode space characters of JS are not modelled; every
pattern and keyword in the pipeline is ASCII. -/
def isJsSpace (c : Char) : Bool :=
  c == ' ' || c == '\t' || c == '\n' || c == '\r' || c == '\x0b' || c == '\x0c'

/-- `query.toLowerCase()` (ASCII range; the keywords compared against are
all ASCII). -/
def lowerStr (s : List Char) : List Char :=
  s.map Char.toLower

/-- `pat` is a prefix of `cs`. -/
def leadsWith : List Char → List Char → Bool
  | [], _ => true
  | _ :: _, [] => false
  | p :: ps, c :: cs => p == c && leadsWith ps cs

/-- `cs.includes(pat)`: `pat` occurs as a contiguous substring of `cs`. -/
def containsSub (pat : List Char) : List Char → Bool
  | [] => pat.isEmpty
  | c :: cs => leadsWith pat (c :: cs) || containsSub pat cs

/-- One of the four binary operators of the classifier regex. -/
def isOpChar (c : Char) : Bool :=
  c == '+' || c == '-' || c == '*' || c == '/'

/-- One attempt of the regex `\d+\s*[+\-*SLASH]\s*\d+` anchored at the head of
`cs`.  Greedy runs without backtracking are equivalent here: after a maximal
digit run the next character is a non-digit, and a shorter run would leave a
digit where the operator (or whitespace) is required, so no backtracking
branch can succeed where the greedy scan fails. -/
def mathAt (cs : List Char) : Bool :=
  match cs with
  | [] => false
  | c :: rest =>
    c.isDigit &&
      match (rest.dropWhile Char.isDigit).dropWhile isJsSpace with
      | [] => false
      | o :: rest2 =>
        isOpChar o &&
          match rest2.dropWhile isJsSpace with
          | [] => false
          | d :: _ => d.isDigit

/-- `lowerQuery.match(regex)` used as a truth test: the pattern matches at
some position of the string. -/
def hasMathPat : List Char → Bool
  | [] => false
  | c :: cs => mathAt (c :: cs) || hasMathPat cs

/-- The intent tags returned by `routeQuery` (src/server.js lines 51-65). -/
inductive Intent
  | weather
  | time
  | math
  | knowledge
  | general
deriving DecidableEq

/-- Embeds `routeQuery` (src/server.js lines 51-65): fixed priority order,
first match wins. -/
def routeQuery (query : List Char) : Intent :=
  let lowerQuery := lowerStr query
  if containsSub "weather".data lowerQuery || containsSub "temperature".data lowerQuery then
    Intent.weather
  else if containsSub "time".data lowerQuery || containsSub "date".data lowerQuery then
    Intent.time
  else if hasMathPat lowerQuery then
    Intent.math
  else if containsSub "who is".data lowerQuery || containsSub "what is".data lowerQuery ||
      containsSub "define".data lowerQuery then
    Intent.knowledge
  else
    Intent.general

/-- Character class `[a-zA-Z\s]` of the location-extraction regex. -/
def isLocChar (c : Char) : Bool :=
  c.isAlpha || isJsSpace c

/-- One attempt of `in ([a-zA-Z\s]+)` anchored at the head of `cs`: the three
literal characters followed by at least one class character; the capture is
the greedy maximal class run. -/
def locAt (cs : List Char) : Option (List Char) :=
  match cs with
  | a :: b :: sp :: c :: rest =>
    if a = 'i' ∧ b = 'n' ∧ sp = ' ' ∧ isLocChar c then
      some ((c :: rest).takeWhile isLocChar)
    else none
  | _ => none

/-- `message.match(/in ([a-zA-Z\s]+)/)?.[1]`: the capture group of the
leftmost match (src/server.js line 125); case-sensitive, on the original
message. -/
def extractLoc : List Char → Option (List Char)
  | [] => none
  | c :: cs =>
    match locAt (c :: cs) with
    | some l => some l
    | none => extractLoc cs

/-- Character class `[\d+\-*/().\s]` of the math-extraction regex
(src/server.js line 136). -/
def isExprChar (c : Char) : Bool :=
  c.isDigit || c == '+' || c == '-' || c == '*' || c == '/' ||
    c == '(' || c == ')' || c == '.' || isJsSpace c

/-- `message.match(regex)[0]` for a single character-class-plus regex: the
leftmost maximal run of characters satisfying `p`, or `none` when no
character matches (in which case the JS `[0]` on `null` throws inside the
resolver's try block). -/
def firstRun (p : Char → Bool) : List Char → Option (List Char)
  | [] => none
  | c :: cs => if p c then some (c :: cs.takeWhile p) else firstRun p cs

/-
Model of the JS engine's `eval` on the arithmetic fragment reachable through
the math resolver's extraction (characters from the class
`[\d+\-*/().\s]` only): decimal literals, unary plus/minus, the binary
operators, exponentiation, parentheses, line and block comments, and
whitespace.  `none` models a thrown SyntaxError/TypeError (caught by the
resolver); an empty program evaluates to `undefined`.  Numbers are modelled
as exact rationals extended with Infinity, negative Infinity and NaN
markers; IEEE-754
rounding, overflow, negative zero, legacy octal literals and automatic
semicolon insertion are outside the modelled fragment (no claim exercises
them).
-/

/-- An exact (not necessarily reduced) fraction with positive denominator,
the number representation of the eval model.  (A plain numerator/denominator
pair is used instead of `ℚ` so that every arithmetic step reduces inside
the kernel.) -/
structure Frac where
  num : Int
  den : Int
deriving DecidableEq

/-- Build a fraction, normalizing the sign into the numerator. -/
def mkFrac (n d : Int) : Frac :=
  if d < 0 then ⟨-n, -d⟩ else ⟨n, d⟩

def fracOfInt (n : Int) : Frac :=
  ⟨n, 1⟩

def fadd (a b : Frac) : Frac :=
  ⟨a.num * b.den + b.num * a.den, a.den * b.den⟩

def fneg (a : Frac) : Frac :=
  ⟨-a.num, a.den⟩

def fmul (a b : Frac) : Frac :=
  ⟨a.num * b.num, a.den * b.den⟩

def fdiv (a b : Frac) : Frac :=
  mkFrac (a.num * b.den) (a.den * b.num)

def fpow (a : Frac) (k : Nat) : Frac :=
  ⟨a.num ^ k, a.den ^ k⟩

def finv (a : Frac) : Frac :=
  mkFrac a.den a.num

/-- The fraction is an exact integer. -/
def fracIsInt (a : Frac) : Bool :=
  a.num % a.den == 0

/-- Tokens of the arithmetic fragment.  `inc`/`dec` are the maximal-munch
lexes of `++`/`--`; the parser has no production for them, matching the JS
SyntaxError on increment/decrement of a literal. -/
inductive Tok
  | num (q : Frac)
  | plus
  | minus
  | star
  | slash
  | pow
  | inc
  | dec
  | lparen
  | rparen
deriving DecidableEq

/-- Numeric value of a digit string. -/
def digitsVal (ds : List Char) : Int :=
  ds.foldl (fun a c => a * 10 + Int.ofNat (c.toNat - '0'.toNat)) 0

/-- Lex one numeric literal (digits, optional dot, digits); at least one
digit must be present overall. -/
def lexNum (cs : List Char) : Option (Frac × List Char) :=
  let ip := cs.takeWhile Char.isDigit
  let rest1 := cs.dropWhile Char.isDigit
  match rest1 with
  | '.' :: rest2 =>
    let fp := rest2.takeWhile Char.isDigit
    let rest3 := rest2.dropWhile Char.isDigit
    if ip.isEmpty && fp.isEmpty then none
    else some (⟨digitsVal ip * 10 ^ fp.length + digitsVal fp, 10 ^ fp.length⟩, rest3)
  | _ =>
    if ip.isEmpty then none
    else some (fracOfInt (digitsVal ip), rest1)

/-- Skip to the end of a block comment; an unterminated comment is a
syntax error. -/
def lexSkipBlock : Nat → List Char → Option (List Char)
  | 0, _ => none
  | _ + 1, [] => none
  | _ + 1, '*' :: '/' :: rest => some rest
  | f + 1, _ :: rest => lexSkipBlock f rest

/-- Maximal-munch tokenizer for the fragment; any character outside the
fragment is a syntax error. -/
def lexAux : Nat → List Char → Option (List Tok)
  | 0, _ => none
  | _ + 1, [] => some []
  | f + 1, c :: cs =>
    if isJsSpace c then lexAux f cs
    else if c.isDigit || (c == '.' && (cs.head?.map Char.isDigit).getD false) then
      match lexNum (c :: cs) with
      | none => none
      | some (q, rest) => (lexAux f rest).map (fun ts => Tok.num q :: ts)
    else
      match c, cs with
      | '+', '+' :: rest => (lexAux f rest).map (fun ts => Tok.inc :: ts)
      | '-', '-' :: rest => (lexAux f rest).map (fun ts => Tok.dec :: ts)
      | '*', '*' :: rest => (lexAux f rest).map (fun ts => Tok.pow :: ts)
      | '/', '/' :: rest => lexAux f (rest.dropWhile (fun d => !(d == '\n')))
      | '/', '*' :: rest =>
        match lexSkipBlock f rest with
        | none => none
        | some rest2 => lexAux f rest2
      | '+', _ => (lexAux f cs).map (fun ts => Tok.plus :: ts)
      | '-', _ => (lexAux f cs).map (fun ts => Tok.minus :: ts)
      | '*', _ => (lexAux f cs).map (fun ts => Tok.star :: ts)
      | '/', _ => (lexAux f cs).map (fun ts => Tok.slash :: ts)
      | '(', _ => (lexAux f cs).map (fun ts => Tok.lparen :: ts)
      | ')', _ => (lexAux f cs).map (fun ts => Tok.rparen :: ts)
      | _, _ => none

/-- JS numbers over exact rationals with the three non-finite markers. -/
inductive JsNum
  | fin (q : Frac)
  | inf
  | ninf
  | nan
deriving DecidableEq

def jsNeg : JsNum → JsNum
  | JsNum.fin q => JsNum.fin (fneg q)
  | JsNum.inf => JsNum.ninf
  | JsNum.ninf => JsNum.inf
  | JsNum.nan => JsNum.nan

def jsAdd : JsNum → JsNum → JsNum
  | JsNum.fin a, JsNum.fin b => JsNum.fin (fadd a b)
  | JsNum.nan, _ => JsNum.nan
  | _, JsNum.nan => JsNum.nan
  | JsNum.inf, JsNum.ninf => JsNum.nan
  | JsNum.ninf, JsNum.inf => JsNum.nan
  | JsNum.inf, _ => JsNum.inf
  | _, JsNum.inf => JsNum.inf
  | JsNum.ninf, _ => JsNum.ninf
  | _, JsNum.ninf => JsNum.ninf

def jsSub (a b : JsNum) : JsNum :=
  jsAdd a (jsNeg b)

def jsMul : JsNum → JsNum → JsNum
  | JsNum.fin a, JsNum.fin b => JsNum.fin (fmul a b)
  | JsNum.nan, _ => JsNum.nan
  | _, JsNum.nan => JsNum.nan
  | JsNum.inf, JsNum.inf => JsNum.inf
  | JsNum.inf, JsNum.ninf => JsNum.ninf
  | JsNum.ninf, JsNum.inf => JsNum.ninf
  | JsNum.ninf, JsNum.ninf => JsNum.inf
  | JsNum.fin a, JsNum.inf =>
    if 0 < a.num then JsNum.inf else if a.num < 0 then JsNum.ninf else JsNum.nan
  | JsNum.inf, JsNum.fin a =>
    if 0 < a.num then JsNum.inf else if a.num < 0 then JsNum.ninf else JsNum.nan
  | JsNum.fin a, JsNum.ninf =>
    if 0 < a.num then JsNum.ninf else if a.num < 0 then JsNum.inf else JsNum.nan
  | JsNum.ninf, JsNum.fin a =>
    if 0 < a.num then JsNum.ninf else if a.num < 0 then JsNum.inf else JsNum.nan

def jsDiv : JsNum → JsNum → JsNum
  | JsNum.fin a, JsNum.fin b =>
    if b.num = 0 then
      if 0 < a.num then JsNum.inf else if a.num < 0 then JsNum.ninf else JsNum.nan
    else JsNum.fin (fdiv a b)
  | JsNum.nan, _ => JsNum.nan
  | _, JsNum.nan => JsNum.nan
  | JsNum.fin _, JsNum.inf => JsNum.fin (fracOfInt 0)
  | JsNum.fin _, JsNum.ninf => JsNum.fin (fracOfInt 0)
  | JsNum.inf, JsNum.fin a => if a.num < 0 then JsNum.ninf else JsNum.inf
  | JsNum.ninf, JsNum.fin a => if a.num < 0 then JsNum.inf else JsNum.ninf
  | _, _ => JsNum.nan

/-- Exponentiation; a non-integral exponent would be real-valued and is
outside the modelled fragment (rendered as NaN), as are non-finite
operands. -/
def jsPow : JsNum → JsNum → JsNum
  | JsNum.fin a, JsNum.fin e =>
    if fracIsInt e then
      let k := e.num / e.den
      if 0 ≤ k then JsNum.fin (fpow a k.toNat)
      else if a.num = 0 then JsNum.inf
      else JsNum.fin (finv (fpow a (-k).toNat))
    else JsNum.nan
  | _, _ => JsNum.nan

mutual

/-- PrimaryExpression: numeric literal or parenthesized expression. -/
def parseAtom : Nat → List Tok → Option (JsNum × List Tok)
  | 0, _ => none
  | _ + 1, Tok.num q :: rest => some (JsNum.fin q, rest)
  | f + 1, Tok.lparen :: rest =>
    match parseAdd f rest with
    | some (v, Tok.rparen :: rest2) => some (v, rest2)
    | _ => none
  | _ + 1, _ => none

/-- ExponentiationExpression: either a UnaryExpression (whose result may not
be the left operand of `**`, matching the JS grammar restriction) or an
atom optionally raised to a further ExponentiationExpression. -/
def parseExpo : Nat → List Tok → Option (JsNum × List Tok)
  | 0, _ => none
  | f + 1, Tok.plus :: rest => parseSigned f rest
  | f + 1, Tok.minus :: rest =>
    match parseSigned f rest with
    | some (v, rest2) => some (jsNeg v, rest2)
    | none => none
  | f + 1, toks =>
    match parseAtom f toks with
    | some (v, Tok.pow :: rest2) =>
      match parseExpo f rest2 with
      | some (w, rest3) => some (jsPow v w, rest3)
      | none => none
    | r => r

/-- UnaryExpression: signs followed by an atom (no `**` may follow). -/
def parseSigned : Nat → List Tok → Option (JsNum × List Tok)
  | 0, _ => none
  | f + 1, Tok.plus :: rest => parseSigned f rest
  | f + 1, Tok.minus :: rest =>
    match parseSigned f rest with
    | some (v, rest2) => some (jsNeg v, rest2)
    | none => none
  | f + 1, toks => parseAtom f toks

/-- MultiplicativeExpression. -/
def parseMul : Nat → List Tok → Option (JsNum × List Tok)
  | 0, _ => none
  | f + 1, toks =>
    match parseExpo f toks with
    | some (v, rest) => parseMulLoop f v rest
    | none => none

def parseMulLoop : Nat → JsNum → List Tok → Option (JsNum × List Tok)
  | 0, _, _ => none
  | f + 1, v, Tok.star :: rest =>
    match parseExpo f rest with
    | some (w, rest2) => parseMulLoop f (jsMul v w) rest2
    | none => none
  | f + 1, v, Tok.slash :: rest =>
    match parseExpo f rest with
    | some (w, rest2) => parseMulLoop f (jsDiv v w) rest2
    | none => none
  | _ + 1, v, toks => some (v, toks)

/-- AdditiveExpression. -/
def parseAdd : Nat → List Tok → Option (JsNum × List Tok)
  | 0, _ => none
  | f + 1, toks =>
    match parseMul f toks with
    | some (v, rest) => parseAddLoop f v rest
    | none => none

def parseAddLoop : Nat → JsNum → List Tok → Option (JsNum × List Tok)
  | 0, _, _ => none
  | f + 1, v, Tok.plus :: rest =>
    match parseMul f rest with
    | some (w, rest2) => parseAddLoop f (jsAdd v w) rest2
    | none => none
  | f + 1, v, Tok.minus :: rest =>
    match parseMul f rest with
    | some (w, rest2) => parseAddLoop f (jsSub v w) rest2
    | none => none
  | _ + 1, v, toks => some (v, toks)

end

/-- Result of evaluating a program of the fragment: `undefined` for an
empty program, otherwise a number. -/
inductive JsVal
  | undef
  | num (v : JsNum)
deriving DecidableEq

/-- `eval` on the fragment: `none` models a thrown error. -/
def jsEval (s : List Char) : Option JsVal :=
  match lexAux (s.length + 1) s with
  | none => none
  | some [] => some JsVal.undef
  | some toks =>
    match parseAdd (4 * toks.length + 8) toks with
    | some (v, []) => some (JsVal.num v)
    | _ => none

def padZeros (s : List Char) (k : Nat) : List Char :=
  List.replicate (k - s.length) '0' ++ s

/-- Decimal rendering of a rational, as JS stringifies a number: integers
without a decimal point, terminating decimals in full.  (Floating-point
shortest-roundtrip artifacts are outside the modelled fragment; a
non-terminating decimal, unreachable by the claims, is rendered as a
fraction.) -/
def showRat (q : Frac) : List Char :=
  if fracIsInt q then (toString (q.num / q.den)).data
  else
    match (List.range 40).find? (fun k => q.num * 10 ^ k % q.den == 0) with
    | some k =>
      let m := q.num * 10 ^ k / q.den
      let a := m.natAbs
      (if m < 0 then ['-'] else []) ++ (toString ((a / 10 ^ k : Nat) : Int)).data ++
        '.' :: padZeros (toString ((a % 10 ^ k : Nat) : Int)).data k
    | none => (toString q.num).data ++ '/' :: (toString q.den).data

/-- Template-literal interpolation `${result}` of the eval result. -/
def showJsVal : JsVal → List Char
  | JsVal.undef => "undefined".data
  | JsVal.num JsNum.nan => "NaN".data
  | JsVal.num JsNum.inf => "Infinity".data
  | JsVal.num JsNum.ninf => "-Infinity".data
  | JsVal.num (JsNum.fin q) => showRat q

/-- Embeds the math case of the dispatch switch (src/server.js lines
134-141): extract the first run of expression characters, evaluate it, and
convert any thrown error (including the `[0]` access on a null match) into
the sentinel. -/
def mathRespond (message : List Char) : List Char :=
  match firstRun isExprChar message with
  | none => "Could not calculate that.".data
  | some e =>
    match jsEval e with
    | none => "Could not calculate that.".data
    | some v => "The answer is: ".data ++ showJsVal v

/-- A geocoding result (`geoRes.data.results[0]`); `none` at the capability
models an empty `results` array. -/
structure GeoInfo where
  latitude : Int
  longitude : Int
  name : List Char
deriving DecidableEq

/-- `weatherRes.data.current_weather`. -/
structure CurrentWeather where
  temperature : Int
  windspeed : Int
deriving DecidableEq

/-- The DuckDuckGo instant-answer payload fields read by the code. -/
structure DDGData where
  abstractText : List Char
  answer : List Char
deriving DecidableEq

/-- The external capabilities and collaborators of the rule-routed pipeline;
`Except.error` models a rejected promise (a thrown error at the await). -/
structure Caps where
  geocode : List Char → Except Unit (Option GeoInfo)
  forecast : Int → Int → Except Unit CurrentWeather
  wiki : List Char → Except Unit (List Char)
  ddg : List Char → Except Unit DDGData
  nowString : List Char
  dbReady : Bool
  save : List Char → List Char → List Char → Except Unit Unit

/-- Embeds `getWeather` (src/server.js lines 68-86): geocode, then forecast;
an empty geocode result yields the not-found sentinel and any thrown error
the unable-to-fetch sentinel. -/
def getWeather (geocode : List Char → Except Unit (Option GeoInfo))
    (forecast : Int → Int → Except Unit CurrentWeather)
    (location : List Char) : List Char :=
  match geocode location with
  | Except.error _ => "Unable to fetch weather at the moment.".data
  | Except.ok none => "Weather location not found.".data
  | Except.ok (some g) =>
    match forecast g.latitude g.longitude with
    | Except.error _ => "Unable to fetch weather at the moment.".data
    | Except.ok w =>
      "The weather in ".data ++ g.name ++ " is ".data ++ (toString w.temperature).data ++
        "°C with wind speed ".data ++ (toString w.windspeed).data ++ " km/h.".data

/-- Embeds `searchWikipedia` (src/server.js lines 89-97):
`res.data.extract || sentinel` with the catch sentinel. -/
def searchWikipedia (wiki : List Char → Except Unit (List Char))
    (query : List Char) : List Char :=
  match wiki query with
  | Except.error _ => "Unable to find information.".data
  | Except.ok t => if t.isEmpty then "No information found.".data else t

/-- Embeds `searchDuckDuckGo` (src/server.js lines 100-108):
`AbstractText || Answer || sentinel` with the catch sentinel. -/
def searchDuckDuckGo (ddg : List Char → Except Unit DDGData)
    (query : List Char) : List Char :=
  match ddg query with
  | Except.error _ => "Search unavailable.".data
  | Except.ok d =>
    if !d.abstractText.isEmpty then d.abstractText
    else if !d.answer.isEmpty then d.answer
    else "No results found.".data

/-- `pat` is a prefix of `cs` compared case-insensitively (regex `i` flag). -/
def ciLeads (pat cs : List Char) : Bool :=
  leadsWith pat (lowerStr cs)

/-- `message.replace(/(who is|what is|define)/gi, '')`: global left-to-right
non-overlapping removal of the three phrases, case-insensitively (the three
alternatives can never match at the same position). -/
def stripPhrases : List Char → List Char
  | [] => []
  | c :: cs =>
    if ciLeads "who is".data (c :: cs) then stripPhrases (cs.drop 5)
    else if ciLeads "what is".data (c :: cs) then stripPhrases (cs.drop 6)
    else if ciLeads "define".data (c :: cs) then stripPhrases (cs.drop 5)
    else c :: stripPhrases cs
termination_by l => l.length
decreasing_by
  all_goals simp only [List.length_drop, List.length_cons]
  all_goals omega

/-- `String.prototype.trim`: whitespace removed from both ends. -/
def trimStr (cs : List Char) : List Char :=
  ((cs.dropWhile isJsSpace).reverse.dropWhile isJsSpace).reverse

/-- The weather case of the dispatch switch (src/server.js lines 124-127):
location from the extraction regex, defaulting to London when the regex
does not match. -/
def weatherResolve (caps : Caps) (message : List Char) : List Char :=
  getWeather caps.geocode caps.forecast ((extractLoc message).getD "London".data)

/-- The time case (src/server.js lines 129-132). -/
def timeResolve (caps : Caps) : List Char :=
  "Current time: ".data ++ caps.nowString

/-- The knowledge case (src/server.js lines 143-146). -/
def knowledgeResolve (caps : Caps) (message : List Char) : List Char :=
  searchWikipedia caps.wiki (trimStr (stripPhrases message))

/-- The terminal canned acknowledgment (src/server.js line 152). -/
def echoMsg (message : List Char) : List Char :=
  "I received your message: \"".data ++ message ++
    "\". I\x27m working on understanding more complex queries!".data

/-- The general/default case (src/server.js lines 148-154). -/
def generalResolve (caps : Caps) (message : List Char) : List Char :=
  let response := searchDuckDuckGo caps.ddg message
  if response.isEmpty || response == "No results found.".data then echoMsg message
  else response

/-- The dispatch switch of the rule-routed chat endpoint (src/server.js
lines 120-155). -/
def computeResponse (caps : Caps) (message : List Char) : List Char :=
  match routeQuery message with
  | Intent.weather => weatherResolve caps message
  | Intent.time => timeResolve caps
  | Intent.math => mathRespond message
  | Intent.knowledge => knowledgeResolve caps message
  | Intent.general => generalResolve caps message

/-- The request body of `/api/chat`; `none` models an absent field. -/
structure ChatBody where
  userId : Option (List Char)
  message : Option (List Char)

/-- The three response shapes of the rule-routed endpoint: 400 with the
validation error, 200 with `{ success, response, queryType }`, and 500 from
the outer catch. -/
inductive ChatResp
  | badRequest (error : List Char)
  | ok (response : List Char) (queryType : Intent)
  | serverError (error : List Char)
deriving DecidableEq

/-- The observable outcome of one request: the HTTP response, the chat
record written to persistence (if any), and whether the dispatch switch
(any resolver) ran. -/
structure ChatOutcome where
  resp : ChatResp
  saved : Option (List Char × List Char × List Char)
  resolverRan : Bool
deriving DecidableEq

/-- Embeds the rule-routed `/api/chat` handler (src/server.js lines
111-168): validate, route and resolve, then save when the connection is
ready; a save rejection reaches the outer catch and produces the 500
response. -/
def chatEndpoint (caps : Caps) (body : ChatBody) : ChatOutcome :=
  match body.message with
  | none => ⟨ChatResp.badRequest "Message is required".data, none, false⟩
  | some m =>
    if m.isEmpty then ⟨ChatResp.badRequest "Message is required".data, none, false⟩
    else
      let userId := body.userId.getD "anonymous".data
      let response := computeResponse caps m
      if caps.dbReady then
        match caps.save userId m response with
        | Except.error _ => ⟨ChatResp.serverError "Server error".data, none, true⟩
        | Except.ok _ =>
          ⟨ChatResp.ok response (routeQuery m), some (userId, m, response), true⟩
      else ⟨ChatResp.ok response (routeQuery m), none, true⟩

/-- The completion capability's failure modes: `auth` models
`error.status === 401`, `other` every other thrown error. -/
inductive OAIErr
  | auth
  | other
deriving DecidableEq

/-- Capabilities of the model-augmented pipeline (second variant of
src/server.js): `complete systemPrompt userContent` is the
chat-completions call. -/
structure Caps2 where
  complete : List Char → List Char → Except OAIErr (List Char)
  ddg : List Char → Except Unit DDGData
  dbReady : Bool
  save : List Char → List Char → List Char → Except Unit Unit

/-- The system prompt of `chatWithOpenAI` (model-augmented variant,
lines 301-329 of the second file). -/
def assistantSys : List Char :=
  ("You are a helpful AI assistant. Provide accurate, concise, and friendly responses. " ++
    "If asked about current events or real-time information, " ++
    "indicate that you may not have the latest data.").data

/-- The system prompt of the synthesis call in `searchWithOpenAI`. -/
def searchSys : List Char :=
  ("You are a helpful search assistant. " ++
    "Synthesize the provided search results into a clear, concise answer.").data

/-- The user content of the synthesis call: the template literal
interpolating the query and the search results. -/
def synthPrompt (query searchResults : List Char) : List Char :=
  "User query: ".data ++ query ++ "\n\nSearch results: ".data ++ searchResults ++
    "\n\nProvide a clear answer based on these results.".data

/-- Embeds `chatWithOpenAI` (model-augmented variant): direct completion on
the message, with the two catch sentinels distinguishing an auth failure
from a generic one. -/
def chatWithOpenAI (complete : List Char → List Char → Except OAIErr (List Char))
    (message : List Char) : List Char :=
  match complete assistantSys message with
  | Except.ok t => t
  | Except.error OAIErr.auth =>
    "OpenAI API key is not configured. Please add OPENAI_API_KEY to environment variables.".data
  | Except.error OAIErr.other =>
    "I encountered an error processing your request. Please try again.".data

/-- Embeds `searchWithOpenAI` (model-augmented variant, lines 332-366 of
the second file): search, fall back to direct completion when the search
result is empty or a search sentinel, otherwise synthesize, falling back to
direct completion when synthesis throws. -/
def searchWithOpenAI (caps : Caps2) (query : List Char) : List Char :=
  let searchResults := searchDuckDuckGo caps.ddg query
  if searchResults.isEmpty || searchResults == "No results found.".data ||
      searchResults == "Search unavailable.".data then
    chatWithOpenAI caps.complete query
  else
    match caps.complete searchSys (synthPrompt query searchResults) with
    | Except.ok t => t
    | Except.error _ => chatWithOpenAI caps.complete query

/-- Response shapes of the model-augmented `/api/chat` (no `queryType`). -/
inductive ChatResp2
  | badRequest (error : List Char)
  | ok (response : List Char)
  | serverError (error : List Char)
deriving DecidableEq

/-- Outcome of one request against the model-augmented endpoint. -/
structure ChatOutcome2 where
  resp : ChatResp2
  saved : Option (List Char × List Char × List Char)
  resolverRan : Bool
deriving DecidableEq

/-- Embeds the model-augmented `/api/chat` handler (lines 411-433 of the
second file): validate, complete, save when ready. -/
def chatEndpointV2 (caps : Caps2) (body : ChatBody) : ChatOutcome2 :=
  match body.message with
  | none => ⟨ChatResp2.badRequest "Message is required".data, none, false⟩
  | some m =>
    if m.isEmpty then ⟨ChatResp2.badRequest "Message is required".data, none, false⟩
    else
      let userId := body.userId.getD "anonymous".data
      let response := chatWithOpenAI caps.complete m
      if caps.dbReady then
        match caps.save userId m response with
        | Except.error _ => ⟨ChatResp2.serverError "Server error".data, none, true⟩
        | Except.ok _ => ⟨ChatResp2.ok response, some (userId, m, response), true⟩
      else ⟨ChatResp2.ok response, none, true⟩

deriving instance DecidableEq for Except

/-- A concrete capability bundle used to instantiate universally quantified
statements: geocoding knows only Paris, persistence is not connected. -/
def caps0 : Caps where
  geocode := fun loc =>
    if loc = "Paris".data then Except.ok (some ⟨2, 3, "Paris".data⟩) else Except.ok none
  forecast := fun _ _ => Except.ok ⟨7, 3⟩
  wiki := fun _ => Except.ok "Paris is a city.".data
  ddg := fun _ => Except.ok ⟨"An answer.".data, []⟩
  nowString := "now".data
  dbReady := false
  save := fun _ _ _ => Except.ok ()

/-- Capability bundle whose web search always throws. -/
def capsDdgFail : Caps :=
  { caps0 with ddg := fun _ => Except.error () }

/-- Capability bundle whose web search returns an empty payload. -/
def capsDdgEmpty : Caps :=
  { caps0 with ddg := fun _ => Except.ok ⟨[], []⟩ }

/-- Capability bundle whose persistence is connected but whose save always
rejects. -/
def capsSaveFail : Caps :=
  { caps0 with dbReady := true, save := fun _ _ _ => Except.error () }

/-- Geocoding that resolves only London; used to exhibit that an unmatched
location is not retried as London. -/
def geoLondonOnly : List Char → Except Unit (Option GeoInfo) :=
  fun loc => if loc = "London".data then Except.ok (some ⟨0, 0, "London".data⟩) else Except.ok none

/-- A constant forecast capability. -/
def forecastConst : Int → Int → Except Unit CurrentWeather :=
  fun _ _ => Except.ok ⟨10, 5⟩

/-- A concrete model-augmented capability bundle with a constant completion
answer. -/
def capsM : Caps2 where
  complete := fun _ _ => Except.ok "A model answer.".data
  ddg := fun _ => Except.ok ⟨"Some abstract.".data, []⟩
  dbReady := false
  save := fun _ _ _ => Except.ok ()

/-- Model-augmented bundle whose web search throws. -/
def capsMFail : Caps2 :=
  { capsM with ddg := fun _ => Except.error () }

/-- Model-augmented bundle whose completion always throws a generic
error. -/
def capsMSynthErr : Caps2 :=
  { capsM with complete := fun _ _ => Except.error OAIErr.other }

/-- C1: the code contradicts the claim at its own example.  For the message
"What is 2 + 2?" the classifier does route to math, but the extraction
regex `[\d+\-*SLASH().\s]+` also matches whitespace, so its first match in
the message is the single space after "What"; `eval(" ")` is `undefined`
and the response is "The answer is: undefined", which does not contain "4".
The remaining parts of the claim hold: a message whose extracted run is the
full expression is answered (e.g. "2 + 2" gives "The answer is: 4"), and a
malformed extracted expression produces the could-not-calculate sentinel
instead of an outward throw. -/
theorem c1_math_extraction_bug :
    routeQuery "What is 2 + 2?".data = Intent.math ∧
    firstRun isExprChar "What is 2 + 2?".data = some [' '] ∧
    mathRespond "What is 2 + 2?".data = "The answer is: undefined".data ∧
    mathRespond "2 + 2".data = "The answer is: 4".data ∧
    mathRespond "( 2+2".data = "Could not calculate that.".data := by
  refine ⟨by decide, by decide, by decide, by decide, by decide⟩

/-- C5: classifier priority — any input containing "weather" or
"temperature" case-insensitively is classified as weather, whatever else
the text contains; the weather test is the first branch of `routeQuery`. -/
theorem c5_weather_priority (s : List Char)
    (h : containsSub "weather".data (lowerStr s) = true ∨
      containsSub "temperature".data (lowerStr s) = true) :
    routeQuery s = Intent.weather := by
  unfold routeQuery
  rcases h with h | h <;> simp [h]

theorem c5_weather_priority_witness :
    containsSub "weather".data (lowerStr "What is the WEATHER in 2 + 2 time?".data) = true ∧
    routeQuery "What is the WEATHER in 2 + 2 time?".data = Intent.weather :=
  ⟨by decide, c5_weather_priority "What is the WEATHER in 2 + 2 time?".data (Or.inl (by decide))⟩

/-- C6: an input with no weather keyword and no time keyword that matches
the arithmetic pattern (one or more digits, an operator, one or more
digits, with optional whitespace; parenthesized forms contain such a core
and therefore also match) is classified as math. -/
theorem c6_math_trigger (s : List Char)
    (h1 : containsSub "weather".data (lowerStr s) = false)
    (h2 : containsSub "temperature".data (lowerStr s) = false)
    (h3 : containsSub "time".data (lowerStr s) = false)
    (h4 : containsSub "date".data (lowerStr s) = false)
    (h5 : hasMathPat (lowerStr s) = true) :
    routeQuery s = Intent.math := by
  unfold routeQuery
  simp [h1, h2, h3, h4, h5]

theorem c6_math_trigger_witness :
    containsSub "weather".data (lowerStr "(12 * 3) - 4".data) = false ∧
    containsSub "temperature".data (lowerStr "(12 * 3) - 4".data) = false ∧
    containsSub "time".data (lowerStr "(12 * 3) - 4".data) = false ∧
    containsSub "date".data (lowerStr "(12 * 3) - 4".data) = false ∧
    hasMathPat (lowerStr "(12 * 3) - 4".data) = true ∧
    routeQuery "(12 * 3) - 4".data = Intent.math :=
  ⟨by decide, by decide, by decide, by decide, by decide,
    c6_math_trigger "(12 * 3) - 4".data (by decide) (by decide) (by decide) (by decide)
      (by decide)⟩

/-- C7: in both pipeline variants an absent or empty message is rejected
with the "Message is required" error; the outcome is a constant independent
of every capability, so no resolver, capability or persistence write can
have run. -/
theorem c7_missing_message (caps : Caps) (caps2 : Caps2) (u : Option (List Char))
    (msg : Option (List Char)) (h : msg = none ∨ msg = some []) :
    chatEndpoint caps ⟨u, msg⟩ =
      ⟨ChatResp.badRequest "Message is required".data, none, false⟩ ∧
    chatEndpointV2 caps2 ⟨u, msg⟩ =
      ⟨ChatResp2.badRequest "Message is required".data, none, false⟩ := by
  rcases h with h | h <;> subst h <;> exact ⟨rfl, rfl⟩

theorem c7_missing_message_witness :
    ((none : Option (List Char)) = none ∨ (none : Option (List Char)) = some []) ∧
    chatEndpoint caps0 ⟨none, none⟩ =
      ⟨ChatResp.badRequest "Message is required".data, none, false⟩ ∧
    chatEndpointV2 capsM ⟨none, none⟩ =
      ⟨ChatResp2.badRequest "Message is required".data, none, false⟩ :=
  ⟨Or.inl rfl, (c7_missing_message caps0 capsM none none (Or.inl rfl)).1,
    (c7_missing_message caps0 capsM none none (Or.inl rfl)).2⟩

/-- C2 counterexample: with a geocoding capability that resolves London but
not Paris, the weather lookup for "Paris" returns the not-found sentinel
and does not fall back to looking up London — refuting the claim's third
part, that an unmatched location "defaults to London rather than
failing". -/
theorem c2_counterexample :
    geoLondonOnly "Paris".data = Except.ok none ∧
    getWeather geoLondonOnly forecastConst "Paris".data = "Weather location not found.".data ∧
    getWeather geoLondonOnly forecastConst "Paris".data ≠
      getWeather geoLondonOnly forecastConst "London".data := by
  refine ⟨by decide, by decide, by decide⟩

/-- C2 (amended): "weather in Paris" extracts "Paris"; a weather-classified
message in which the location regex does not match is looked up with the
default "London"; but a location the geocoder cannot match yields the
"Weather location not found." sentinel (no London fallback). -/
theorem c2_weather_location :
    extractLoc "weather in Paris".data = some "Paris".data ∧
    (∀ (caps : Caps) (m : List Char), routeQuery m = Intent.weather →
      extractLoc m = none →
      computeResponse caps m = getWeather caps.geocode caps.forecast "London".data) ∧
    (∀ (g : List Char → Except Unit (Option GeoInfo))
      (f : Int → Int → Except Unit CurrentWeather) (loc : List Char),
      g loc = Except.ok none → getWeather g f loc = "Weather location not found.".data) := by
  refine ⟨by decide, ?_, ?_⟩
  · intro caps m hr he
    simp [computeResponse, hr, weatherResolve, he]
  · intro g f loc hg
    simp [getWeather, hg]

theorem c2_weather_location_witness :
    routeQuery "weather".data = Intent.weather ∧
    extractLoc "weather".data = none ∧
    computeResponse caps0 "weather".data =
      getWeather caps0.geocode caps0.forecast "London".data ∧
    geoLondonOnly "Paris".data = Except.ok none ∧
    getWeather geoLondonOnly forecastConst "Paris".data = "Weather location not found.".data :=
  ⟨by decide, by decide,
    c2_weather_location.2.1 caps0 "weather".data (by decide) (by decide),
    by decide,
    c2_weather_location.2.2 geoLondonOnly forecastConst "Paris".data (by decide)⟩

/-- C3 counterexample: when the search capability fails (throws), the final
answer is the "Search unavailable." sentinel, not the canned acknowledgment
echoing the message — refuting the claim's "or fails" branch. -/
theorem c3_counterexample :
    routeQuery "hello there".data = Intent.general ∧
    capsDdgFail.ddg "hello there".data = Except.error () ∧
    computeResponse capsDdgFail "hello there".data = "Search unavailable.".data ∧
    computeResponse capsDdgFail "hello there".data ≠ echoMsg "hello there".data := by
  refine ⟨by decide, by decide, by decide, by decide⟩

/-- The canned acknowledgment is never the empty string. -/
theorem echoMsg_ne_nil (m : List Char) : echoMsg m ≠ [] := by
  simp [echoMsg]

/-- C3 (amended): for a general-classified message, an empty or no-result
search answer is replaced by the canned acknowledgment echoing the
message; a search failure instead surfaces the "Search unavailable."
sentinel; in every case the final answer is nonempty. -/
theorem c3_general_fallback :
    (∀ (caps : Caps) (m : List Char), routeQuery m = Intent.general →
      searchDuckDuckGo caps.ddg m = [] ∨
        searchDuckDuckGo caps.ddg m = "No results found.".data →
      computeResponse caps m = echoMsg m) ∧
    (∀ (caps : Caps) (m : List Char), routeQuery m = Intent.general →
      caps.ddg m = Except.error () →
      computeResponse caps m = "Search unavailable.".data) ∧
    (∀ (caps : Caps) (m : List Char), routeQuery m = Intent.general →
      computeResponse caps m ≠ []) := by
  refine ⟨?_, ?_, ?_⟩
  · intro caps m hr h
    rcases h with h | h <;> simp [computeResponse, hr, generalResolve, h]
  · intro caps m hr h
    simp [computeResponse, hr, generalResolve, searchDuckDuckGo, h]
  · intro caps m hr
    simp only [computeResponse, hr, generalResolve]
    split
    · exact echoMsg_ne_nil m
    · rename_i hcond
      intro hnil
      rw [hnil] at hcond
      simp at hcond

theorem c3_general_fallback_witness :
    routeQuery "hello there".data = Intent.general ∧
    searchDuckDuckGo capsDdgEmpty.ddg "hello there".data = "No results found.".data ∧
    computeResponse capsDdgEmpty "hello there".data = echoMsg "hello there".data ∧
    computeResponse caps0 "hello there".data ≠ [] :=
  ⟨by decide, by decide,
    c3_general_fallback.1 capsDdgEmpty "hello there".data (by decide) (Or.inr (by decide)),
    c3_general_fallback.2.2 caps0 "hello there".data (by decide)⟩

/-- C4 counterexample: with a ready persistence connection whose save
rejects, the endpoint answers with the 500 "Server error" response, not
with the computed answer — refuting the claim that a persistence failure
cannot change the answer returned to the caller. -/
theorem c4_counterexample :
    (chatEndpoint capsSaveFail ⟨none, some "hello there".data⟩).resp =
      ChatResp.serverError "Server error".data ∧
    (chatEndpoint capsSaveFail ⟨none, some "hello there".data⟩).resp ≠
      ChatResp.ok (computeResponse capsSaveFail "hello there".data)
        (routeQuery "hello there".data) := by
  refine ⟨by decide, by decide⟩

/-- C4 (amended): the save runs on the answer's return path inside the
endpoint's try/catch, so a save rejection produces the 500 "Server error"
response instead of the computed answer; the computed answer is returned
(and at most one record written) exactly when persistence is skipped
(connection not ready) or the save succeeds. -/
theorem c4_persistence (caps : Caps) (u : Option (List Char)) (m : List Char)
    (hm : m ≠ []) :
    (caps.dbReady = true →
      caps.save (u.getD "anonymous".data) m (computeResponse caps m) = Except.error () →
      (chatEndpoint caps ⟨u, some m⟩).resp = ChatResp.serverError "Server error".data) ∧
    (caps.dbReady = false →
      chatEndpoint caps ⟨u, some m⟩ =
        ⟨ChatResp.ok (computeResponse caps m) (routeQuery m), none, true⟩) ∧
    (caps.dbReady = true →
      caps.save (u.getD "anonymous".data) m (computeResponse caps m) = Except.ok () →
      chatEndpoint caps ⟨u, some m⟩ =
        ⟨ChatResp.ok (computeResponse caps m) (routeQuery m),
          some (u.getD "anonymous".data, m, computeResponse caps m), true⟩) := by
  have hm2 : m.isEmpty = false := by
    cases m with
    | nil => exact absurd rfl hm
    | cons c cs => rfl
  refine ⟨?_, ?_, ?_⟩
  · intro hready hsave
    simp [chatEndpoint, hm2, hready, hsave]
  · intro hready
    simp [chatEndpoint, hm2, hready]
  · intro hready hsave
    simp [chatEndpoint, hm2, hready, hsave]

theorem c4_persistence_witness :
    "hello there".data ≠ [] ∧
    chatEndpoint caps0 ⟨none, some "hello there".data⟩ =
      ⟨ChatResp.ok (computeResponse caps0 "hello there".data)
        (routeQuery "hello there".data), none, true⟩ ∧
    (chatEndpoint capsSaveFail ⟨none, some "hello there".data⟩).resp =
      ChatResp.serverError "Server error".data :=
  ⟨by decide,
    (c4_persistence caps0 none "hello there".data (by decide)).2.1 rfl,
    (c4_persistence capsSaveFail none "hello there".data (by decide)).1 rfl (by decide)⟩

/-- The search results the model-augmented resolver treats as unusable
(the check on line 337 of the second file). -/
def unusableSearch (r : List Char) : Prop :=
  r = [] ∨ r = "No results found.".data ∨ r = "Search unavailable.".data

instance (r : List Char) : Decidable (unusableSearch r) := by
  unfold unusableSearch
  infer_instance

/-- The boolean guard of `searchWithOpenAI` decides `unusableSearch`. -/
theorem unusable_guard (r : List Char) :
    (r.isEmpty || r == "No results found.".data || r == "Search unavailable.".data) = true ↔
      unusableSearch r := by
  cases r <;> simp [unusableSearch, List.isEmpty]

/-- If every successful completion output is nonempty, the direct
completion path never returns an empty answer (its catch sentinels are
nonempty). -/
theorem chatWithOpenAI_ne_nil (complete : List Char → List Char → Except OAIErr (List Char))
    (m : List Char) (h : ∀ s u t, complete s u = Except.ok t → t ≠ []) :
    chatWithOpenAI complete m ≠ [] := by
  unfold chatWithOpenAI
  cases hc : complete assistantSys m with
  | ok t => exact h _ _ _ hc
  | error e => cases e <;> decide

/-- C8: in the model-augmented pipeline, an unusable search result routes
the query to the direct completion (no search context); a synthesis error
over a usable search result also falls back to the direct completion; and
provided the completion capability never returns empty text, the pipeline
never returns an empty answer. -/
theorem c8_model_fallback (caps : Caps2) (q : List Char) :
    (unusableSearch (searchDuckDuckGo caps.ddg q) →
      searchWithOpenAI caps q = chatWithOpenAI caps.complete q) ∧
    (∀ e, ¬ unusableSearch (searchDuckDuckGo caps.ddg q) →
      caps.complete searchSys (synthPrompt q (searchDuckDuckGo caps.ddg q)) =
        Except.error e →
      searchWithOpenAI caps q = chatWithOpenAI caps.complete q) ∧
    ((∀ s u t, caps.complete s u = Except.ok t → t ≠ []) →
      searchWithOpenAI caps q ≠ []) := by
  refine ⟨?_, ?_, ?_⟩
  · intro h
    have hb := (unusable_guard (searchDuckDuckGo caps.ddg q)).mpr h
    simp [searchWithOpenAI, hb]
  · intro e hu hc
    have hb : ((searchDuckDuckGo caps.ddg q).isEmpty ||
        searchDuckDuckGo caps.ddg q == "No results found.".data ||
        searchDuckDuckGo caps.ddg q == "Search unavailable.".data) = false := by
      cases hbb : ((searchDuckDuckGo caps.ddg q).isEmpty ||
          searchDuckDuckGo caps.ddg q == "No results found.".data ||
          searchDuckDuckGo caps.ddg q == "Search unavailable.".data) with
      | false => rfl
      | true => exact absurd ((unusable_guard _).mp hbb) hu
    simp [searchWithOpenAI, hb, hc]
  · intro hne
    by_cases hb : ((searchDuckDuckGo caps.ddg q).isEmpty ||
        searchDuckDuckGo caps.ddg q == "No results found.".data ||
        searchDuckDuckGo caps.ddg q == "Search unavailable.".data) = true
    · simp only [searchWithOpenAI, hb, if_true]
      exact chatWithOpenAI_ne_nil caps.complete q hne
    · rw [Bool.not_eq_true] at hb
      simp only [searchWithOpenAI, hb, Bool.false_eq_true, if_false]
      cases hc : caps.complete searchSys
          (synthPrompt q (searchDuckDuckGo caps.ddg q)) with
      | ok t => exact hne _ _ _ hc
      | error e => exact chatWithOpenAI_ne_nil caps.complete q hne

theorem c8_model_fallback_witness :
    unusableSearch (searchDuckDuckGo capsMFail.ddg "anything".data) ∧
    searchWithOpenAI capsMFail "anything".data =
      chatWithOpenAI capsMFail.complete "anything".data ∧
    (¬ unusableSearch (searchDuckDuckGo capsMSynthErr.ddg "anything".data)) ∧
    searchWithOpenAI capsMSynthErr "anything".data =
      chatWithOpenAI capsMSynthErr.complete "anything".data ∧
    searchWithOpenAI capsM "anything".data ≠ [] :=
  ⟨Or.inr (Or.inr (by decide)),
    (c8_model_fallback capsMFail "anything".data).1 (Or.inr (Or.inr (by decide))),
    by decide,
    (c8_model_fallback capsMSynthErr "anything".data).2.1 OAIErr.other (by decide) (by decide),
    (c8_model_fallback capsM "anything".data).2.2
      (fun s u t h => by
        simp only [capsM] at h
        cases h
        decide)⟩

/-- C9: for every capability bundle and message, the rule-routed pipeline's
final answer text is exactly one resolver's output — or, in the general
case, either the raw search output or the terminal canned acknowledgment —
never a merge of several resolvers' text. -/
theorem c9_single_source (caps : Caps) (m : List Char) :
    computeResponse caps m = weatherResolve caps m ∨
    computeResponse caps m = timeResolve caps ∨
    computeResponse caps m = mathRespond m ∨
    computeResponse caps m = knowledgeResolve caps m ∨
    computeResponse caps m = searchDuckDuckGo caps.ddg m ∨
    computeResponse caps m = echoMsg m := by
  unfold computeResponse
  cases hq : routeQuery m with
  | weather => exact Or.inl rfl
  | time => exact Or.inr (Or.inl rfl)
  | math => exact Or.inr (Or.inr (Or.inl rfl))
  | knowledge => exact Or.inr (Or.inr (Or.inr (Or.inl rfl)))
  | general =>
    unfold generalResolve
    cases hb : ((searchDuckDuckGo caps.ddg m).isEmpty ||
        searchDuckDuckGo caps.ddg m == "No results found.".data) with
    | true =>
      refine Or.inr (Or.inr (Or.inr (Or.inr (Or.inr ?_))))
      simp [hb]
    | false =>
      refine Or.inr (Or.inr (Or.inr (Or.inr (Or.inl ?_))))
      simp [hb]

/-- Inversion of one anchored attempt of the location regex: a successful
attempt means the text starts with the literal "in " followed by at least
one class character, and the capture is the maximal class run after the
literal. -/
theorem locAt_some {cs l : List Char} (h : locAt cs = some l) :
    ∃ post, cs = 'i' :: 'n' :: ' ' :: post ∧ l = post.takeWhile isLocChar ∧ l ≠ [] := by
  match cs with
  | [] => simp [locAt] at h
  | [a] => simp [locAt] at h
  | [a, b] => simp [locAt] at h
  | [a, b, sp] => simp [locAt] at h
  | a :: b :: sp :: c :: rest =>
    simp only [locAt] at h
    split at h
    · rename_i hif
      obtain ⟨ha, hb, hsp, hc⟩ := hif
      subst ha
      subst hb
      subst hsp
      injection h with h2
      refine ⟨c :: rest, rfl, h2.symm, ?_⟩
      rw [← h2]
      simp [List.takeWhile_cons, hc]
    · simp at h

/-- Structure of a successful location extraction: the message splits at
the leftmost position where the regex matches (no earlier attempt
succeeds), the capture follows a literal "in ", is nonempty, and is the
maximal run of class characters after it. -/
theorem extractLoc_structure (m l : List Char) (h : extractLoc m = some l) :
    ∃ pre post, m = pre ++ 'i' :: 'n' :: ' ' :: post ∧ l = post.takeWhile isLocChar ∧
      l ≠ [] ∧ ∀ j, j < pre.length → locAt (m.drop j) = none := by
  induction m with
  | nil => simp [extractLoc] at h
  | cons c cs ih =>
    simp only [extractLoc] at h
    cases hl : locAt (c :: cs) with
    | some l2 =>
      rw [hl] at h
      injection h with h2
      subst h2
      obtain ⟨post, hcs, hle, hne⟩ := locAt_some hl
      exact ⟨[], post, by simpa using hcs, hle, hne, fun j hj => absurd hj (by simp)⟩
    | none =>
      rw [hl] at h
      obtain ⟨pre, post, hm, hl2, hne, hleft⟩ := ih h
      refine ⟨c :: pre, post, by rw [List.cons_append, ← hm], hl2, hne, ?_⟩
      intro j hj
      cases j with
      | zero => exact hl
      | succ j2 =>
        rw [List.drop_succ_cons]
        exact hleft j2 (by simpa using hj)

/-- C10: location extraction runs case-sensitively on the original message
while classification lowercases it: every weather-classified message is
looked up at the extracted location (or "London" when the regex fails),
"WEATHER IN PARIS" extracts nothing and falls back to "London", trailing
words are included in the capture ("weather in New York today" extracts
"New York today"), and a successful capture is always the maximal
letters-and-whitespace run after the leftmost lowercase "in " admitting a
nonempty capture. -/
theorem c10_location_case_sensitive :
    (∀ (caps : Caps) (m : List Char), routeQuery m = Intent.weather →
      computeResponse caps m =
        getWeather caps.geocode caps.forecast ((extractLoc m).getD "London".data)) ∧
    extractLoc "WEATHER IN PARIS".data = none ∧
    (∀ caps : Caps, computeResponse caps "WEATHER IN PARIS".data =
      getWeather caps.geocode caps.forecast "London".data) ∧
    extractLoc "weather in New York today".data = some "New York today".data ∧
    (∀ (m l : List Char), extractLoc m = some l →
      ∃ pre post, m = pre ++ 'i' :: 'n' :: ' ' :: post ∧ l = post.takeWhile isLocChar ∧
        l ≠ [] ∧ ∀ j, j < pre.length → locAt (m.drop j) = none) := by
  refine ⟨?_, by decide, ?_, by decide, extractLoc_structure⟩
  · intro caps m hr
    simp [computeResponse, hr, weatherResolve]
  · intro caps
    have hr : routeQuery "WEATHER IN PARIS".data = Intent.weather := by decide
    have he : extractLoc "WEATHER IN PARIS".data = none := by decide
    simp [computeResponse, hr, weatherResolve, he]

theorem c10_location_case_sensitive_witness :
    routeQuery "weather in Paris".data = Intent.weather ∧
    computeResponse caps0 "weather in Paris".data =
      getWeather caps0.geocode caps0.forecast
        ((extractLoc "weather in Paris".data).getD "London".data) ∧
    (∃ pre post, "weather in Paris".data = pre ++ 'i' :: 'n' :: ' ' :: post ∧
      "Paris".data = post.takeWhile isLocChar ∧ "Paris".data ≠ [] ∧
      ∀ j, j < pre.length → locAt (("weather in Paris".data).drop j) = none) :=
  ⟨by decide,
    c10_location_case_sensitive.1 caps0 "weather in Paris".data (by decide),
    c10_location_case_sensitive.2.2.2.2 "weather in Paris".data "Paris".data (by decide)⟩
